import Mathlib

/-
  Verification development for the RI CTC calculator frontend core:
  the reform-parameter data model, the calculation client error handling,
  the staleness check governing the recalculate control, the derived-value
  rendering, the transport serialization, and the query-layer configuration.

  Numbers are modelled as rationals (exact arithmetic stands in for the
  JavaScript number type; none of the verified properties depends on
  rounding).  JavaScript runtime objects whose field order is observable
  through JSON.stringify are modelled as ordered field lists.
-/

/-- Filing statuses keying the phase-out-threshold tables
(`PhaseoutThresholds` in the frontend type definitions). -/
inductive FilingStatus where
  | SINGLE
  | JOINT
  | HEAD_OF_HOUSEHOLD
  | SURVIVING_SPOUSE
  | SEPARATE
deriving DecidableEq

/-- A phase-out-threshold table as the JavaScript runtime holds it: an ordered
list of field/value pairs.  The field order is observable, because
`JSON.stringify` serializes object fields in insertion order. -/
abbrev ThresholdsObj := List (FilingStatus × ℚ)

/-- Field-by-field lookup in a threshold table (the order-insensitive view of
the table). -/
def tableLookup (t : ThresholdsObj) (fs : FilingStatus) : Option ℚ :=
  (t.find? (fun p => p.1 == fs)).map (fun p => p.2)

/-- Two tables carry the same value for each of the five filing statuses:
the order-insensitive, field-by-field comparison. -/
def sameFiveValues (t1 t2 : ThresholdsObj) : Bool :=
  [FilingStatus.SINGLE, FilingStatus.JOINT, FilingStatus.HEAD_OF_HOUSEHOLD,
   FilingStatus.SURVIVING_SPOUSE, FilingStatus.SEPARATE].all
    (fun fs => tableLookup t1 fs == tableLookup t2 fs)

/-- `ReformParams` (frontend `lib/types.ts`): CTC parameters plus
dependent-exemption parameters.  Threshold tables are kept as the runtime
holds them (ordered field lists); the exemption table may be `null`
(modelled by `Option`), which is distinct from a zero-valued table. -/
structure ReformParamsObj where
  ctc_amount : ℚ
  ctc_age_limit : ℚ
  ctc_refundability_cap : ℚ
  ctc_phaseout_rate : ℚ
  ctc_phaseout_thresholds : ThresholdsObj
  ctc_young_child_boost_amount : ℚ
  ctc_young_child_boost_age_limit : ℚ
  enable_exemption_reform : Bool
  exemption_amount : ℚ
  exemption_age_limit_enabled : Bool
  exemption_age_threshold : ℚ
  exemption_phaseout_rate : ℚ
  exemption_phaseout_thresholds : Option ThresholdsObj
deriving DecidableEq

/-- The form state compared by `hasChanges` in `Home` (frontend page
component): household fields plus reform parameters. -/
structure FormSnapshot where
  ageHead : ℚ
  ageSpouse : Option ℚ
  married : Bool
  dependentAges : List ℚ
  income : ℚ
  reformParams : ReformParamsObj
deriving DecidableEq

/-- `hasChanges` from `Home`:
`ageHead !== calculatedAgeHead || ... || JSON.stringify(reformParams) !==
JSON.stringify(calculatedReformParams)`.
The `JSON.stringify` string comparisons are modelled as structural equality of
the serialized values: on this fragment (numbers, booleans, null, arrays,
objects with their runtime field order) `JSON.stringify` is injective, so
string equality coincides with equality of the ordered trees.  In particular
the array and object comparisons are order-sensitive list equalities. -/
def hasChanges (live submitted : FormSnapshot) : Bool :=
  decide (live.ageHead ≠ submitted.ageHead) ||
  decide (live.ageSpouse ≠ submitted.ageSpouse) ||
  decide (live.married ≠ submitted.married) ||
  decide (live.dependentAges ≠ submitted.dependentAges) ||
  decide (live.income ≠ submitted.income) ||
  decide (live.reformParams ≠ submitted.reformParams)

/-- The per-query lifecycle of the spec: no submission yet, a request in
flight, or a held result (success or error). -/
inductive QueryStatus where
  | idle
  | pending
  | settled
deriving DecidableEq

/-- `calculationTriggered` in `Home` is set on the first submission and never
reset: it is `false` exactly in the idle state. -/
def calculationTriggeredOf : QueryStatus → Bool
  | QueryStatus.idle => false
  | QueryStatus.pending => true
  | QueryStatus.settled => true

/-- The Calculate button of `HouseholdForm`:
`disabled = calculationTriggered && !hasChanges`, so it is enabled iff
`!(calculationTriggered && !hasChanges)`. -/
def recalcButtonEnabled (calculationTriggered : Bool) (live submitted : FormSnapshot) : Bool :=
  !(calculationTriggered && !(hasChanges live submitted))

/-- The enablement of the recalculate control as a function of the query
status and the live/submitted snapshots. -/
def recalcEnabled (status : QueryStatus) (live submitted : FormSnapshot) : Bool :=
  recalcButtonEnabled (calculationTriggeredOf status) live submitted

/-- The refundability select value computed by `HouseholdForm`:
`cap === 0 ? "non-refundable" : cap === amount ? "fully-refundable" :
"partially-refundable"`.  A pure function of the parameters. -/
def refundabilitySelectValue (p : ReformParamsObj) : String :=
  if p.ctc_refundability_cap = 0 then "non-refundable"
  else if p.ctc_refundability_cap = p.ctc_amount then "fully-refundable"
  else "partially-refundable"

/-- The parsed JSON body of a non-success response: it may or may not carry a
`detail` string. -/
structure ErrorData where
  detail : Option String
deriving DecidableEq

/-- Result of `response.json().catch(() => null)`: `none` models a JSON parse
failure (swallowed into `null`), `some d` a successfully parsed body. -/
abbrev ParsedErrorBody := Option ErrorData

/-- An HTTP response as the client observes it: the success flag, the status
code, and what parsing the error body yields. -/
structure HttpResponse where
  ok : Bool
  status : Nat
  errorBody : ParsedErrorBody
deriving DecidableEq

/-- The `ApiError` class of `lib/api.ts`: message, optional HTTP status,
optional parsed payload. -/
structure ApiError where
  message : String
  status : Option Nat
  response : ParsedErrorBody
deriving DecidableEq

/-- `errorData?.detail || fallback`: JavaScript `||` falls back when the
optional chain yields `undefined` or `null`, and also on the empty string
(falsy). -/
def detailOrFallback (body : ParsedErrorBody) (fallback : String) : String :=
  match body with
  | some d =>
    match d.detail with
    | some s => if s = "" then fallback else s
    | none => fallback
  | none => fallback

/-- The generic message `HTTP error {status}`. -/
def httpErrorMessage (status : Nat) : String :=
  "HTTP error " ++ toString status

/-- Error construction shared by `calculateHouseholdImpact` and
`calculateAggregateImpact`:
`new ApiError(errorData?.detail || "HTTP error " + status, status, errorData)`. -/
def calcApiErrorOf (resp : HttpResponse) : ApiError :=
  { message := detailOrFallback resp.errorBody (httpErrorMessage resp.status)
  , status := some resp.status
  , response := resp.errorBody }

/-- `calculateHouseholdImpact`: on a non-ok response it throws the shared
`ApiError`; otherwise it resolves. -/
def calculateHouseholdImpactOutcome (resp : HttpResponse) : Except ApiError Unit :=
  if resp.ok then Except.ok () else Except.error (calcApiErrorOf resp)

/-- `calculateAggregateImpact`: identical non-ok handling. -/
def calculateAggregateImpactOutcome (resp : HttpResponse) : Except ApiError Unit :=
  if resp.ok then Except.ok () else Except.error (calcApiErrorOf resp)

/-- `health`: on a non-ok response it throws
`new ApiError("Health check failed: " + status)` — no status argument and no
payload are passed, and the body is never read. -/
def healthOutcome (resp : HttpResponse) : Except ApiError Unit :=
  if resp.ok then Except.ok ()
  else Except.error
    { message := "Health check failed: " ++ toString resp.status
    , status := none
    , response := none }

/-- The message the claim prescribes for a non-success response: the parsed
body detail when present and non-empty, else the generic message.  Stated
from the spec wording, to be compared with the code-side construction. -/
def claimedErrorMessage (status : Nat) (body : ParsedErrorBody) : String :=
  match body with
  | some d =>
    match d.detail with
    | some s => if s = "" then httpErrorMessage status else s
    | none => httpErrorMessage status
  | none => httpErrorMessage status

/-- `benefit_at_income` of a household-impact response. -/
structure BenefitAtIncome where
  baseline : ℚ
  reform : ℚ
  difference : ℚ
  ctc_component : ℚ
  exemption_tax_benefit : ℚ
deriving DecidableEq

/-- What the personal-impact card of `ImpactAnalysis` shows: the headline
difference, and the conditionally shown breakdown rows with their raw
values.  The component has no other output; in particular there is no
warning or integrity-flag field. -/
structure RenderedPersonalImpact where
  headlineDifference : ℚ
  showBreakdown : Bool
  showCtcRow : Bool
  ctcRowValue : ℚ
  showExemptionRow : Bool
  exemptionRowValue : ℚ
deriving DecidableEq

/-- The personal-impact rendering of `ImpactAnalysis`: the headline is
`difference` as-is; the breakdown is shown iff `difference !== 0`; each row
is shown iff its component is non-zero and displays the raw component. -/
def renderPersonalImpact (b : BenefitAtIncome) : RenderedPersonalImpact :=
  { headlineDifference := b.difference
  , showBreakdown := decide (b.difference ≠ 0)
  , showCtcRow := decide (b.ctc_component ≠ 0)
  , ctcRowValue := b.ctc_component
  , showExemptionRow := decide (b.exemption_tax_benefit ≠ 0)
  , exemptionRowValue := b.exemption_tax_benefit }

/-- Stated from the spec: the component sum disagrees with the headline
difference beyond 1e-6 relative tolerance. -/
def breakdownMismatch (b : BenefitAtIncome) : Bool :=
  decide (|b.ctc_component + b.exemption_tax_benefit - b.difference| >
    (1 / 1000000) * |b.difference|)

/-- JSON values of the transport encoding (the fragment the reform
parameters serialize into). -/
inductive Jval where
  | num (q : ℚ)
  | bool (b : Bool)
  | null
  | obj (fields : List (String × Jval))

/-- The JSON object key of a filing status. -/
def statusKey : FilingStatus → String
  | FilingStatus.SINGLE => "SINGLE"
  | FilingStatus.JOINT => "JOINT"
  | FilingStatus.HEAD_OF_HOUSEHOLD => "HEAD_OF_HOUSEHOLD"
  | FilingStatus.SURVIVING_SPOUSE => "SURVIVING_SPOUSE"
  | FilingStatus.SEPARATE => "SEPARATE"

/-- The filing status of a JSON object key. -/
def keyStatus (k : String) : Option FilingStatus :=
  if k = "SINGLE" then some FilingStatus.SINGLE
  else if k = "JOINT" then some FilingStatus.JOINT
  else if k = "HEAD_OF_HOUSEHOLD" then some FilingStatus.HEAD_OF_HOUSEHOLD
  else if k = "SURVIVING_SPOUSE" then some FilingStatus.SURVIVING_SPOUSE
  else if k = "SEPARATE" then some FilingStatus.SEPARATE
  else none

/-- `JSON.stringify` of a threshold table: an object whose fields appear in
the runtime order. -/
def serializeThresholds (t : ThresholdsObj) : Jval :=
  Jval.obj (t.map (fun p => (statusKey p.1, Jval.num p.2)))

/-- Serialization of the nullable exemption table: `null` stays `null`. -/
def serializeExemptionThresholds : Option ThresholdsObj → Jval
  | none => Jval.null
  | some t => serializeThresholds t

/-- `JSON.stringify` of a `ReformParams` value, with the interface field
order. -/
def serializeReform (p : ReformParamsObj) : Jval :=
  Jval.obj
    [ ("ctc_amount", Jval.num p.ctc_amount)
    , ("ctc_age_limit", Jval.num p.ctc_age_limit)
    , ("ctc_refundability_cap", Jval.num p.ctc_refundability_cap)
    , ("ctc_phaseout_rate", Jval.num p.ctc_phaseout_rate)
    , ("ctc_phaseout_thresholds", serializeThresholds p.ctc_phaseout_thresholds)
    , ("ctc_young_child_boost_amount", Jval.num p.ctc_young_child_boost_amount)
    , ("ctc_young_child_boost_age_limit", Jval.num p.ctc_young_child_boost_age_limit)
    , ("enable_exemption_reform", Jval.bool p.enable_exemption_reform)
    , ("exemption_amount", Jval.num p.exemption_amount)
    , ("exemption_age_limit_enabled", Jval.bool p.exemption_age_limit_enabled)
    , ("exemption_age_threshold", Jval.num p.exemption_age_threshold)
    , ("exemption_phaseout_rate", Jval.num p.exemption_phaseout_rate)
    , ("exemption_phaseout_thresholds",
        serializeExemptionThresholds p.exemption_phaseout_thresholds) ]

/-- Key lookup in a serialized JSON object. -/
def jlookup (fields : List (String × Jval)) (k : String) : Option Jval :=
  (fields.find? (fun p => p.1 == k)).map (fun p => p.2)

/-- A JSON number. -/
def parseNum : Jval → Option ℚ
  | Jval.num q => some q
  | _ => none

/-- A JSON boolean. -/
def parseBool : Jval → Option Bool
  | Jval.bool b => some b
  | _ => none

/-- One field of a serialized threshold table. -/
def parseThresholdField : String × Jval → Option (FilingStatus × ℚ)
  | (k, v) => do
    let fs ← keyStatus k
    let q ← parseNum v
    pure (fs, q)

/-- The fields of a serialized threshold table, in order. -/
def parseThresholdList : List (String × Jval) → Option ThresholdsObj
  | [] => some []
  | f :: rest => do
    let p ← parseThresholdField f
    let tl ← parseThresholdList rest
    pure (p :: tl)

/-- Modelled from the spec: the backend deserialization of a threshold table
(the Pydantic models are not among the provided sources).  Per the spec the
reform parameters are round-trippable to and from the transport encoding;
an object deserializes field by field. -/
def parseThresholds : Jval → Option ThresholdsObj
  | Jval.obj fields => parseThresholdList fields
  | _ => none

/-- Modelled from the spec: a `null` exemption table deserializes to the
absent table, distinct from any zero-valued table. -/
def parseExemptionThresholds : Jval → Option (Option ThresholdsObj)
  | Jval.null => some none
  | v => (parseThresholds v).map some

/-- Modelled from the spec: the backend deserialization of a `ReformParams`
value (the Pydantic models are not among the provided sources): each field is
read by key from the transport object. -/
def parseReform (j : Jval) : Option ReformParamsObj :=
  match j with
  | Jval.obj fields => do
    let a1 ← jlookup fields "ctc_amount" >>= parseNum
    let a2 ← jlookup fields "ctc_age_limit" >>= parseNum
    let a3 ← jlookup fields "ctc_refundability_cap" >>= parseNum
    let a4 ← jlookup fields "ctc_phaseout_rate" >>= parseNum
    let a5 ← jlookup fields "ctc_phaseout_thresholds" >>= parseThresholds
    let a6 ← jlookup fields "ctc_young_child_boost_amount" >>= parseNum
    let a7 ← jlookup fields "ctc_young_child_boost_age_limit" >>= parseNum
    let a8 ← jlookup fields "enable_exemption_reform" >>= parseBool
    let a9 ← jlookup fields "exemption_amount" >>= parseNum
    let a10 ← jlookup fields "exemption_age_limit_enabled" >>= parseBool
    let a11 ← jlookup fields "exemption_age_threshold" >>= parseNum
    let a12 ← jlookup fields "exemption_phaseout_rate" >>= parseNum
    let a13 ← jlookup fields "exemption_phaseout_thresholds" >>= parseExemptionThresholds
    pure
      { ctc_amount := a1
      , ctc_age_limit := a2
      , ctc_refundability_cap := a3
      , ctc_phaseout_rate := a4
      , ctc_phaseout_thresholds := a5
      , ctc_young_child_boost_amount := a6
      , ctc_young_child_boost_age_limit := a7
      , enable_exemption_reform := a8
      , exemption_amount := a9
      , exemption_age_limit_enabled := a10
      , exemption_age_threshold := a11
      , exemption_phaseout_rate := a12
      , exemption_phaseout_thresholds := a13 }
  | _ => none

/-- The query configuration the hooks pass to the query layer. -/
structure QueryConfig where
  retry : Nat
  staleTimeMs : Nat
  gcTimeMs : Nat
deriving DecidableEq

/-- `useAggregateImpact`: `staleTime: 5 * 60 * 1000, gcTime: 10 * 60 * 1000,
retry: 1`. -/
def aggregateImpactQueryConfig : QueryConfig :=
  { retry := 1, staleTimeMs := 5 * 60 * 1000, gcTimeMs := 10 * 60 * 1000 }

/-- Modelled from the spec: the `useHouseholdImpact` hook is not among the
provided sources; per the spec every logical query uses the same freshness
window (five minutes) and the same single automatic retry. -/
def householdImpactQueryConfig : QueryConfig :=
  { retry := 1, staleTimeMs := 5 * 60 * 1000, gcTimeMs := 10 * 60 * 1000 }

/-- Modelled from the spec: the query layer performs one attempt and, while
the attempt fails and retry budget remains, one automatic retry per unit of
budget; `fails i` tells whether attempt `i` fails.  Returns the number of
attempts performed before the outcome is surfaced as the settled state. -/
def attemptsUsed : Nat → (Nat → Bool) → Nat
  | 0, _ => 1
  | b + 1, fails =>
    if fails 0 then 1 + attemptsUsed b (fun i => fails (i + 1)) else 1

/-- A settled cache entry: the input it was computed for and when it
settled. -/
structure CacheEntry (α : Type) where
  input : α
  settledAt : Nat
deriving DecidableEq

/-- Modelled from the spec: a submission is served from cache iff its input
equals the cached input structurally and the entry is still fresh (age at
most the configured freshness window). -/
def servedFromCache {α : Type} [DecidableEq α] (cfg : QueryConfig)
    (entry : Option (CacheEntry α)) (input : α) (now : Nat) : Bool :=
  match entry with
  | some e => decide (input = e.input) && decide (now - e.settledAt ≤ cfg.staleTimeMs)
  | none => false

/-- Modelled from the spec: client invocations caused by one submission —
zero on a fresh cache hit, otherwise one call plus up to `retry` automatic
retries. -/
def clientCallsOnSubmit {α : Type} [DecidableEq α] (cfg : QueryConfig)
    (entry : Option (CacheEntry α)) (input : α) (now : Nat)
    (fails : Nat → Bool) : Nat :=
  if servedFromCache cfg entry input now then 0 else attemptsUsed cfg.retry fails

/-- `DEFAULT_TIMEOUT` of `lib/api.ts`: two minutes, in milliseconds. -/
def DEFAULT_TIMEOUT : Nat := 120000

/-- `calculateHouseholdImpact` calls `fetchWithTimeout` without a timeout
argument, so the parameter default `DEFAULT_TIMEOUT` applies. -/
def householdImpactTimeoutMs : Nat := DEFAULT_TIMEOUT

/-- `calculateAggregateImpact` passes `DEFAULT_TIMEOUT` explicitly. -/
def aggregateImpactTimeoutMs : Nat := DEFAULT_TIMEOUT

/-- `fetchWithTimeout` arms a single timer that aborts the outstanding call
once `timeout` milliseconds have elapsed, and not before. -/
def timerAborted (timeoutMs elapsedMs : Nat) : Bool :=
  decide (timeoutMs ≤ elapsedMs)

/-- The household UI state owned by `Home` and edited through
`HouseholdForm`. -/
structure HouseholdState where
  ageHead : ℚ
  ageSpouse : Option ℚ
  married : Bool
  dependentAges : List ℚ
  income : ℚ
deriving DecidableEq

/-- The initial state of `Home`: age 35, unmarried, no spouse age, one
five-year-old dependent, income 50000. -/
def initialHouseholdState : HouseholdState :=
  { ageHead := 35, ageSpouse := none, married := false
  , dependentAges := [5], income := 50000 }

/-- The form operations of `HouseholdForm` that touch the household state.
The spouse-age input is only rendered when married, so its change event can
only occur in a married state. -/
inductive FormEvent where
  | marriedChange (value : Bool)
  | spouseAgeChange (value : ℚ)
  | headAgeChange (value : ℚ)
  | dependentCountChange (count : Nat)
  | dependentAgeChange (index : Nat) (value : ℚ)
  | incomeChange (value : ℚ)

/-- `handleDependentCountChange`: push fives until the list reaches `count`,
or truncate to the first `count` entries (the count input is constrained to
non-negative values). -/
def dependentCountChangeAges (ages : List ℚ) (count : Nat) : List ℚ :=
  if ages.length < count then ages ++ List.replicate (count - ages.length) 5
  else ages.take count

/-- One form operation applied to the household state, from the
`HouseholdForm` handlers.  `marriedChange` is `handleMarriedChange`:
unchecking clears the spouse age to `null`, checking sets it to 35.
`spouseAgeChange` only applies in a married state (the input is conditionally
rendered). -/
def applyFormEvent (s : HouseholdState) : FormEvent → HouseholdState
  | FormEvent.marriedChange v =>
    if v then { s with married := true, ageSpouse := some 35 }
    else { s with married := false, ageSpouse := none }
  | FormEvent.spouseAgeChange v =>
    if s.married then { s with ageSpouse := some v } else s
  | FormEvent.headAgeChange v => { s with ageHead := v }
  | FormEvent.dependentCountChange n =>
    { s with dependentAges := dependentCountChangeAges s.dependentAges n }
  | FormEvent.dependentAgeChange i v =>
    { s with dependentAges := s.dependentAges.set i v }
  | FormEvent.incomeChange v => { s with income := v }

/-- The invariant of the claim: the spouse age is `null` exactly when the
household is not married. -/
def spouseNullIffUnmarried (s : HouseholdState) : Prop :=
  s.ageSpouse = none ↔ s.married = false

/-- The spouse age `Home` hands to the request-building component:
`calculatedMarried ? calculatedAgeSpouse : null`. -/
def impactRequestAgeSpouse (calculatedMarried : Bool)
    (calculatedAgeSpouse : Option ℚ) : Option ℚ :=
  if calculatedMarried then calculatedAgeSpouse else none

/-- The body of `POST /api/aggregate-impact`:
`{ year: year, reform_params: reformParams }`. -/
structure AggregateRequestBody where
  year : ℚ
  reform_params : ReformParamsObj
deriving DecidableEq

/-- The JavaScript parameter default of `calculateAggregateImpact`:
`year: number = 2027`. -/
def aggregateYearDefault : ℚ := 2027

/-- `calculateAggregateImpact(reformParams, year)` builds the request body
from both arguments. -/
def calculateAggregateImpactBody (reformParams : ReformParamsObj) (year : ℚ) :
    AggregateRequestBody :=
  { year := year, reform_params := reformParams }

/-- The `queryFn` of `useAggregateImpact` calls
`api.calculateAggregateImpact(reformParams)` with the year omitted, so the
parameter default applies. -/
def useAggregateImpactRequestBody (reformParams : ReformParamsObj) :
    AggregateRequestBody :=
  calculateAggregateImpactBody reformParams aggregateYearDefault

/-- A threshold table in one field order. -/
def sampleThresholdsA : ThresholdsObj :=
  [ (FilingStatus.SINGLE, 10000), (FilingStatus.JOINT, 20000)
  , (FilingStatus.HEAD_OF_HOUSEHOLD, 15000), (FilingStatus.SURVIVING_SPOUSE, 20000)
  , (FilingStatus.SEPARATE, 10000) ]

/-- The same five values with the first two fields listed in the other
order. -/
def sampleThresholdsB : ThresholdsObj :=
  [ (FilingStatus.JOINT, 20000), (FilingStatus.SINGLE, 10000)
  , (FilingStatus.HEAD_OF_HOUSEHOLD, 15000), (FilingStatus.SURVIVING_SPOUSE, 20000)
  , (FilingStatus.SEPARATE, 10000) ]

/-- The default reform parameters of `Home`, with the sample CTC threshold
table. -/
def sampleReformParams : ReformParamsObj :=
  { ctc_amount := 1000, ctc_age_limit := 18, ctc_refundability_cap := 0
  , ctc_phaseout_rate := 0, ctc_phaseout_thresholds := sampleThresholdsA
  , ctc_young_child_boost_amount := 0, ctc_young_child_boost_age_limit := 6
  , enable_exemption_reform := false, exemption_amount := 5200
  , exemption_age_limit_enabled := true, exemption_age_threshold := 18
  , exemption_phaseout_rate := 0, exemption_phaseout_thresholds := none }

/-- The same parameters with the CTC threshold table reordered. -/
def sampleReformParamsReordered : ReformParamsObj :=
  { sampleReformParams with ctc_phaseout_thresholds := sampleThresholdsB }

/-- A form snapshot with the sample parameters. -/
def sampleSnapshot : FormSnapshot :=
  { ageHead := 35, ageSpouse := none, married := false, dependentAges := [5]
  , income := 50000, reformParams := sampleReformParams }

/-- The same snapshot with the reordered threshold table. -/
def sampleSnapshotReordered : FormSnapshot :=
  { sampleSnapshot with reformParams := sampleReformParamsReordered }

/-- The same snapshot with a different income. -/
def sampleSnapshotEdited : FormSnapshot :=
  { sampleSnapshot with income := 60000 }

/-- The stringify-based comparison reports no change exactly when the two
snapshots are structurally identical, field order of the threshold tables
included. -/
theorem hasChanges_eq_false_iff (live submitted : FormSnapshot) :
    hasChanges live submitted = false ↔ live = submitted := by
  unfold hasChanges
  simp only [Bool.or_eq_false_iff, decide_eq_false_iff_not, not_not]
  constructor
  · rintro ⟨⟨⟨⟨⟨h1, h2⟩, h3⟩, h4⟩, h5⟩, h6⟩
    cases live; cases submitted
    simp_all
  · rintro rfl
    exact ⟨⟨⟨⟨⟨rfl, rfl⟩, rfl⟩, rfl⟩, rfl⟩, rfl⟩

/-- The stringify-based comparison reports a change exactly when the two
snapshots differ structurally. -/
theorem hasChanges_eq_true_iff (live submitted : FormSnapshot) :
    hasChanges live submitted = true ↔ live ≠ submitted := by
  rw [Ne, ← hasChanges_eq_false_iff]
  cases hasChanges live submitted <;> simp

/-- Claim C3 counterexample: the two sample threshold tables carry the same
five filing-status values but list the fields in a different order, yet the
duplicate check reports the inputs as changed (`hasChanges = true`), not as
equal. -/
theorem claim3_counterexample :
    sameFiveValues sampleThresholdsA sampleThresholdsB = true ∧
    sampleThresholdsA ≠ sampleThresholdsB ∧
    hasChanges sampleSnapshot sampleSnapshotReordered = true := by
  refine ⟨by decide, by decide, by decide⟩

/-- Claim C3 amended: the duplicate check compares JSON serializations, which
are field-order sensitive; it reports no change exactly when the live and
submitted inputs are structurally identical, threshold-table field order
included. -/
theorem claim3_amended (live submitted : FormSnapshot) :
    hasChanges live submitted = false ↔ live = submitted :=
  hasChanges_eq_false_iff live submitted

/-- Claim C4 counterexample: with a submission still pending (not settled)
and an edited live input, the recalculate control is enabled, although the
claimed condition (idle, or settled with a differing input) does not hold. -/
theorem claim4_counterexample :
    recalcEnabled QueryStatus.pending sampleSnapshotEdited sampleSnapshot = true ∧
    ¬(QueryStatus.pending = QueryStatus.idle ∨
      (QueryStatus.pending = QueryStatus.settled ∧
        sampleSnapshotEdited ≠ sampleSnapshot)) := by
  refine ⟨by decide, by decide⟩

/-- Claim C4 amended: the recalculate control is enabled iff no calculation
has been submitted yet (idle), or the live form input differs structurally
from the last submitted input — whether the submission is still pending or
has settled; when a submission exists and the live input equals the
submitted input, the control is disabled. -/
theorem claim4_amended (status : QueryStatus) (live submitted : FormSnapshot) :
    recalcEnabled status live submitted = true ↔
      (status = QueryStatus.idle ∨ live ≠ submitted) := by
  cases status <;>
    simp [recalcEnabled, recalcButtonEnabled, calculationTriggeredOf,
      hasChanges_eq_true_iff]

/-- A reform where the refundability cap exceeds the credit amount. -/
def sampleCapAboveAmount : ReformParamsObj :=
  { sampleReformParams with ctc_amount := 1000, ctc_refundability_cap := 2000 }

/-- Claim C5 counterexample: with credit amount 1000 and refundability cap
2000 the classification is "partially-refundable", although the cap is not
strictly between 0 and the credit amount. -/
theorem claim5_counterexample :
    refundabilitySelectValue sampleCapAboveAmount = "partially-refundable" ∧
    0 < sampleCapAboveAmount.ctc_amount ∧
    ¬(0 < sampleCapAboveAmount.ctc_refundability_cap ∧
      sampleCapAboveAmount.ctc_refundability_cap < sampleCapAboveAmount.ctc_amount) := by
  refine ⟨by decide, by decide, by decide⟩

/-- Claim C5 amended: for credit amount > 0 the classification is
"non-refundable" exactly when the cap is 0, "fully-refundable" exactly when
the cap equals the credit amount, and "partially-refundable" exactly when the
cap is neither 0 nor the credit amount (including caps above the amount);
the classification is a pure function and leaves the cap unchanged. -/
theorem claim5_amended (p : ReformParamsObj) (hpos : 0 < p.ctc_amount) :
    (refundabilitySelectValue p = "non-refundable" ↔ p.ctc_refundability_cap = 0) ∧
    (refundabilitySelectValue p = "fully-refundable" ↔
      p.ctc_refundability_cap = p.ctc_amount) ∧
    (refundabilitySelectValue p = "partially-refundable" ↔
      (p.ctc_refundability_cap ≠ 0 ∧ p.ctc_refundability_cap ≠ p.ctc_amount)) := by
  unfold refundabilitySelectValue
  split_ifs with h0 h1
  · refine ⟨⟨fun _ => h0, fun _ => rfl⟩, ?_, ?_⟩
    · constructor
      · intro h
        exact absurd h (by decide)
      · intro h
        rw [h0] at h
        exact absurd hpos (by rw [← h]; exact lt_irrefl 0)
    · constructor
      · intro h
        exact absurd h (by decide)
      · intro h
        exact absurd h0 h.1
  · refine ⟨?_, ⟨fun _ => h1, fun _ => rfl⟩, ?_⟩
    · constructor
      · intro h
        exact absurd h (by decide)
      · intro h
        exact absurd h h0
    · constructor
      · intro h
        exact absurd h (by decide)
      · intro h
        exact absurd h1 h.2
  · refine ⟨?_, ?_, ⟨fun _ => ⟨h0, h1⟩, fun _ => rfl⟩⟩
    · constructor
      · intro h
        exact absurd h (by decide)
      · intro h
        exact absurd h h0
    · constructor
      · intro h
        exact absurd h (by decide)
      · intro h
        exact absurd h h1

/-- Claim C5 witness: the amended classification at the default parameters
(amount 1000, cap 0). -/
theorem claim5_witness :
    refundabilitySelectValue sampleReformParams = "non-refundable" :=
  (claim5_amended sampleReformParams (by decide)).1.mpr (by decide)

/-- Claim C1 counterexample: on a 500 response, `health` throws an `ApiError`
that carries no HTTP status at all and whose message is
"Health check failed: 500", not the claimed generic "HTTP error 500". -/
theorem claim1_counterexample :
    healthOutcome { ok := false, status := 500, errorBody := none } =
      Except.error
        { message := "Health check failed: 500", status := none, response := none } ∧
    "Health check failed: 500" ≠ httpErrorMessage 500 ∧
    (none : Option Nat) ≠ some 500 := by
  refine ⟨rfl, by decide, by decide⟩

/-- Claim C1 amended: on a non-success response, `calculateHouseholdImpact`
and `calculateAggregateImpact` throw a single `ApiError` carrying the HTTP
status, whose message is the parsed error payload detail when the body parses
as JSON with a non-empty `detail` string and the generic "HTTP error
{status}" otherwise — a JSON parse failure of the error body is swallowed,
never propagated; `health`, however, throws an `ApiError` with no status and
the distinct message "Health check failed: {status}", without reading the
body. -/
theorem claim1_amended (status : Nat) (body : ParsedErrorBody) :
    (∃ e : ApiError,
      calculateHouseholdImpactOutcome { ok := false, status := status, errorBody := body } =
        Except.error e ∧
      e.status = some status ∧ e.message = claimedErrorMessage status body) ∧
    (∃ e : ApiError,
      calculateAggregateImpactOutcome { ok := false, status := status, errorBody := body } =
        Except.error e ∧
      e.status = some status ∧ e.message = claimedErrorMessage status body) ∧
    (∃ e : ApiError,
      healthOutcome { ok := false, status := status, errorBody := body } =
        Except.error e ∧
      e.status = none ∧ e.message = "Health check failed: " ++ toString status) := by
  have hmsg : detailOrFallback body (httpErrorMessage status) =
      claimedErrorMessage status body := by
    cases body with
    | none => rfl
    | some d =>
      cases hd : d.detail with
      | none => simp [detailOrFallback, claimedErrorMessage, hd]
      | some s => simp [detailOrFallback, claimedErrorMessage, hd]
  refine ⟨⟨calcApiErrorOf { ok := false, status := status, errorBody := body },
      rfl, rfl, hmsg⟩,
    ⟨calcApiErrorOf { ok := false, status := status, errorBody := body },
      rfl, rfl, hmsg⟩,
    ⟨{ message := "Health check failed: " ++ toString status, status := none,
        response := none }, rfl, rfl, rfl⟩⟩

/-- A synthetic benefit breakdown whose components (1000 + 0) do not sum to
the headline difference (500), far beyond the 1e-6 relative tolerance. -/
def mismatchedBenefit : BenefitAtIncome :=
  { baseline := 0, reform := 500, difference := 500
  , ctc_component := 1000, exemption_tax_benefit := 0 }

/-- Claim C2 counterexample: the mismatched synthetic result is rendered
exactly as the plain as-is display — the headline shows 500, the CTC row
shows 1000 — and the rendering (whose output has no warning or flag
component at all) raises no DataIntegrityWarning condition. -/
theorem claim2_counterexample :
    breakdownMismatch mismatchedBenefit = true ∧
    renderPersonalImpact mismatchedBenefit =
      { headlineDifference := 500, showBreakdown := true, showCtcRow := true
      , ctcRowValue := 1000, showExemptionRow := false, exemptionRowValue := 0 } := by
  constructor
  · unfold breakdownMismatch mismatchedBenefit
    rw [decide_eq_true_eq]
    norm_num
  · decide

/-- Claim C2 amended: the derived-value computation never recomputes
`ctc_component + exemption_tax_benefit` against `difference`; even for a
result violating the 1e-6 relative tolerance, the breakdown is displayed
as-is with the headline difference authoritative, and no DataIntegrityWarning
condition exists to be raised. -/
theorem claim2_amended (b : BenefitAtIncome) (_hmis : breakdownMismatch b = true) :
    (renderPersonalImpact b).headlineDifference = b.difference ∧
    (renderPersonalImpact b).ctcRowValue = b.ctc_component ∧
    (renderPersonalImpact b).exemptionRowValue = b.exemption_tax_benefit :=
  ⟨rfl, rfl, rfl⟩

/-- Claim C2 witness: the amended statement at the mismatched synthetic
result. -/
theorem claim2_witness :
    breakdownMismatch mismatchedBenefit = true ∧
    (renderPersonalImpact mismatchedBenefit).headlineDifference =
      mismatchedBenefit.difference := by
  have hmis : breakdownMismatch mismatchedBenefit = true := by
    unfold breakdownMismatch mismatchedBenefit
    rw [decide_eq_true_eq]
    norm_num
  exact ⟨hmis, (claim2_amended mismatchedBenefit hmis).1⟩

/-- Claim C8: both calculation operations run under the 120000 ms client-side
timeout; the abort timer fires only once the deadline has elapsed, so a
request still pending at 90 seconds is not aborted. -/
theorem claim8_timeouts :
    householdImpactTimeoutMs = 120000 ∧
    aggregateImpactTimeoutMs = 120000 ∧
    120000 ≤ householdImpactTimeoutMs ∧
    (∀ elapsedMs : Nat, elapsedMs < 120000 →
      timerAborted householdImpactTimeoutMs elapsedMs = false ∧
      timerAborted aggregateImpactTimeoutMs elapsedMs = false) ∧
    timerAborted householdImpactTimeoutMs 90000 = false ∧
    timerAborted aggregateImpactTimeoutMs 90000 = false := by
  refine ⟨rfl, rfl, le_refl _, ?_, by decide, by decide⟩
  intro elapsedMs h
  unfold timerAborted householdImpactTimeoutMs aggregateImpactTimeoutMs DEFAULT_TIMEOUT
  constructor <;> simp <;> omega

/-- Claim C8 witness: the timer has not fired at 90000 ms. -/
theorem claim8_witness :
    timerAborted householdImpactTimeoutMs 90000 = false :=
  ((claim8_timeouts.2.2.2.1 90000 (by decide)).1)

/-- Claim C10: when the caller omits the year — as the `useAggregateImpact`
query function always does — the aggregate-impact request body carries the
silently defaulted year 2027 together with the given reform parameters. -/
theorem claim10_default_year (p : ReformParamsObj) :
    (useAggregateImpactRequestBody p).year = 2027 ∧
    (useAggregateImpactRequestBody p).reform_params = p :=
  ⟨rfl, rfl⟩

/-- Claim C9: the initial household state satisfies the invariant "spouse age
is null exactly when not married"; every form operation preserves it;
unchecking married clears the spouse age and checking it sets 35; and the
household-impact request passes null for the spouse age whenever the
submitted state is unmarried. -/
theorem claim9_spouse_invariant :
    spouseNullIffUnmarried initialHouseholdState ∧
    (∀ (s : HouseholdState) (e : FormEvent),
      spouseNullIffUnmarried s → spouseNullIffUnmarried (applyFormEvent s e)) ∧
    (∀ s : HouseholdState,
      (applyFormEvent s (FormEvent.marriedChange false)).ageSpouse = none) ∧
    (∀ s : HouseholdState,
      (applyFormEvent s (FormEvent.marriedChange true)).ageSpouse = some 35) ∧
    (∀ sp : Option ℚ, impactRequestAgeSpouse false sp = none) := by
  refine ⟨by simp [spouseNullIffUnmarried, initialHouseholdState], ?_,
    fun s => rfl, fun s => rfl, fun sp => rfl⟩
  intro s e h
  cases e with
  | marriedChange v =>
    cases v <;> simp [applyFormEvent, spouseNullIffUnmarried]
  | spouseAgeChange v =>
    unfold applyFormEvent
    by_cases hm : s.married
    · simp [spouseNullIffUnmarried, hm]
    · simpa [hm] using h
  | headAgeChange v => exact h
  | dependentCountChange n => exact h
  | dependentAgeChange i v => exact h
  | incomeChange v => exact h

/-- Claim C9 witness: instances of the invariant statement — the initial
state satisfies it, checking married preserves it, and an unmarried
submission yields a null spouse age in the request. -/
theorem claim9_witness :
    spouseNullIffUnmarried
      (applyFormEvent initialHouseholdState (FormEvent.marriedChange true)) ∧
    impactRequestAgeSpouse false (some 35) = none :=
  ⟨claim9_spouse_invariant.2.1 initialHouseholdState (FormEvent.marriedChange true)
      claim9_spouse_invariant.1,
    claim9_spouse_invariant.2.2.2.2 (some 35)⟩

/-- With one unit of retry budget, at most two attempts are ever performed. -/
theorem attemptsUsed_retry_one_le_two (fails : Nat → Bool) :
    attemptsUsed 1 fails ≤ 2 := by
  unfold attemptsUsed
  split
  · unfold attemptsUsed
    exact le_refl 2
  · omega

/-- Claim C7: both query configurations request exactly one automatic retry
and a five-minute freshness window; under the modelled query-layer semantics
a failing request is attempted at most twice (one retry) before the error
settles, and a repeated submission whose input equals a cached entry within
the freshness window causes zero further client invocations. -/
theorem claim7_retry_and_cache :
    (aggregateImpactQueryConfig.retry = 1 ∧
      aggregateImpactQueryConfig.staleTimeMs = 5 * 60 * 1000 ∧
      householdImpactQueryConfig.retry = 1 ∧
      householdImpactQueryConfig.staleTimeMs = 5 * 60 * 1000) ∧
    (∀ fails : Nat → Bool,
      attemptsUsed aggregateImpactQueryConfig.retry fails ≤ 2 ∧
      attemptsUsed householdImpactQueryConfig.retry fails ≤ 2) ∧
    (∀ (e : CacheEntry ReformParamsObj) (input : ReformParamsObj)
        (now : Nat) (fails : Nat → Bool),
      input = e.input →
      now - e.settledAt ≤ aggregateImpactQueryConfig.staleTimeMs →
      clientCallsOnSubmit aggregateImpactQueryConfig (some e) input now fails = 0) := by
  refine ⟨⟨rfl, rfl, rfl, rfl⟩, ?_, ?_⟩
  · intro fails
    exact ⟨attemptsUsed_retry_one_le_two fails, attemptsUsed_retry_one_le_two fails⟩
  · intro e input now fails hin hfresh
    unfold clientCallsOnSubmit servedFromCache
    simp [hin, hfresh]

/-- Claim C7 witness: a repeated identical submission one minute after the
entry settled is served with zero client calls, and a persistently failing
request uses at most two attempts. -/
theorem claim7_witness :
    clientCallsOnSubmit aggregateImpactQueryConfig
      (some { input := sampleReformParams, settledAt := 0 })
      sampleReformParams 60000 (fun _ => true) = 0 ∧
    attemptsUsed aggregateImpactQueryConfig.retry (fun _ => true) ≤ 2 :=
  ⟨claim7_retry_and_cache.2.2 { input := sampleReformParams, settledAt := 0 }
      sampleReformParams 60000 (fun _ => true) rfl (by decide),
    (claim7_retry_and_cache.2.1 (fun _ => true)).1⟩

/-- The key written for a filing status reads back as that status. -/
theorem keyStatus_statusKey (fs : FilingStatus) :
    keyStatus (statusKey fs) = some fs := by
  cases fs <;> rfl

/-- A serialized threshold field list parses back to the original list. -/
theorem parseThresholdList_map_serialize (t : ThresholdsObj) :
    parseThresholdList (t.map (fun p => (statusKey p.1, Jval.num p.2))) = some t := by
  induction t with
  | nil => rfl
  | cons hd tl ih =>
    simp [parseThresholdList, parseThresholdField, keyStatus_statusKey, parseNum, ih]

/-- A serialized threshold table parses back to the original table. -/
theorem parseThresholds_serializeThresholds (t : ThresholdsObj) :
    parseThresholds (serializeThresholds t) = some t := by
  simp [parseThresholds, serializeThresholds, parseThresholdList_map_serialize]

/-- The nullable exemption table round-trips: `null` to the absent table, a
present table to itself. -/
theorem parseExemption_serializeExemption (o : Option ThresholdsObj) :
    parseExemptionThresholds (serializeExemptionThresholds o) = some o := by
  cases o with
  | none => rfl
  | some t =>
    simp [serializeExemptionThresholds, parseExemptionThresholds,
      serializeThresholds, parseThresholds, parseThresholdList_map_serialize]

/-- Every reform-parameter value serialized to the transport encoding
deserializes back to the same value. -/
theorem parseReform_serializeReform (p : ReformParamsObj) :
    parseReform (serializeReform p) = some p := by
  cases p
  simp [parseReform, serializeReform, jlookup, List.find?, parseNum, parseBool,
    parseThresholds_serializeThresholds, parseExemption_serializeExemption]

/-- Claim C6: serialize-then-deserialize is the identity on reform-parameter
values (the serialization is lossless); serialization is injective, so a null
(absent) exemption threshold table is never conflated with any other value —
in particular not with a table of five zeros; and a null table round-trips
back to null. -/
theorem claim6_roundtrip :
    (∀ p : ReformParamsObj, parseReform (serializeReform p) = some p) ∧
    (∀ p q : ReformParamsObj, serializeReform p = serializeReform q → p = q) ∧
    (∀ p : ReformParamsObj, p.exemption_phaseout_thresholds = none →
      ∀ r : ReformParamsObj, parseReform (serializeReform p) = some r →
        r.exemption_phaseout_thresholds = none) := by
  refine ⟨parseReform_serializeReform, ?_, ?_⟩
  · intro p q h
    have hp := parseReform_serializeReform p
    have hq := parseReform_serializeReform q
    rw [h, hq] at hp
    exact (Option.some.injEq q p ▸ hp).symm
  · intro p hnone r hr
    have hp := parseReform_serializeReform p
    rw [hp] at hr
    cases hr
    exact hnone

/-- Claim C6 witness: the sample parameters (whose exemption table is null)
round-trip to themselves, serialization distinguishes them from the
reordered variant, and the null table comes back as null. -/
theorem claim6_witness :
    parseReform (serializeReform sampleReformParams) = some sampleReformParams ∧
    sampleReformParams.exemption_phaseout_thresholds = none :=
  ⟨claim6_roundtrip.1 sampleReformParams,
    claim6_roundtrip.2.2 sampleReformParams rfl sampleReformParams
      (claim6_roundtrip.1 sampleReformParams)⟩

/-- Claim C1 witness: the amended statement instantiated at a 500 response
with an unparseable body. -/
theorem claim1_witness :
    ∃ e : ApiError,
      healthOutcome { ok := false, status := 500, errorBody := none } =
        Except.error e ∧
      e.status = none ∧ e.message = "Health check failed: " ++ toString 500 :=
  (claim1_amended 500 none).2.2

/-- Claim C3 witness: an unchanged snapshot is reported as unchanged. -/
theorem claim3_witness :
    hasChanges sampleSnapshot sampleSnapshot = false :=
  (claim3_amended sampleSnapshot sampleSnapshot).mpr rfl

/-- Claim C4 witness: in the idle state the control is enabled. -/
theorem claim4_witness :
    recalcEnabled QueryStatus.idle sampleSnapshot sampleSnapshot = true :=
  (claim4_amended QueryStatus.idle sampleSnapshot sampleSnapshot).mpr (Or.inl rfl)

/-- Claim C10 witness: the defaulted year at the sample parameters. -/
theorem claim10_witness :
    (useAggregateImpactRequestBody sampleReformParams).year = 2027 :=
  (claim10_default_year sampleReformParams).1
